import Mathlib

/-!
# Verification of the gebeya Telegram Mini App client state logic

Shallow embedding of the client-side state logic of the gebeya
marketplace frontend:

* the navigation shell of `src/frontend/src/App.tsx` (tab / page state,
  deep-link resolution, unread-count polling),
* the chat-room message poller of `src/frontend/src/pages/ChatRoomPage.tsx`,
* the toast notification provider (ToastProvider / showToast / hideToast),
* the passcode lock screen (PasscodeLock.handleSubmit).

React `useState` state is modelled as explicit records threaded through
transition functions; `useRef` cells are additional record fields; the
network boundary (`chatsApi`, `usersApi`) is modelled as function
parameters supplying the fetched data, and `setTimeout` scheduling as an
explicit list of pending timer events.
-/

namespace Gebeya

/-! ## JavaScript string primitives

JavaScript string operations used by the embedded code, modelled over
the underlying character list (`String.data`) so that they are
executable inside the kernel. -/

/-- `s.startsWith(p)`. -/
def jsStartsWith (s p : String) : Bool :=
  p.data.isPrefixOf s.data

/-- `s.slice(n)` / dropping the first `n` characters. -/
def jsDrop (s : String) (n : Nat) : String :=
  ⟨s.data.drop n⟩

/-- Does every character of `s` satisfy `p`? -/
def jsAll (s : String) (p : Char → Bool) : Bool :=
  s.data.all p

/-- `s.length`. -/
def jsLength (s : String) : Nat :=
  s.data.length

/-! ## Navigation data model (App.tsx) -/

/-- The bottom-navigation tabs: `type TabType = 'home' | 'post' | 'messages' | 'profile'`. -/
inductive TabType where
  | home
  | post
  | messages
  | profile
deriving DecidableEq, Repr

/-- The page variants:
`type PageType = 'main' | 'create' | 'listing' | 'chat-room' | 'edit' |
'my-listings' | 'favorites' | 'my-purchases' | 'seller-profile'`. -/
inductive PageType where
  | main
  | create
  | listing
  | chatRoom
  | edit
  | myListings
  | favorites
  | myPurchases
  | sellerProfile
deriving DecidableEq, Repr

/-- `interface PageState { type: PageType; listingId?: string; chatId?: string;
sellerId?: string }`.  The optional string fields are `Option String`;
`none` models the field being absent (`undefined`). -/
structure PageState where
  type : PageType
  listingId : Option String
  chatId : Option String
  sellerId : Option String
deriving DecidableEq, Repr

/-- The mutable state of `AppContent` relevant to navigation and the
unread poller: `activeTab` and `page` are `useState` cells,
`unreadCount` is a `useState` cell and `lastUnread` is the
`lastUnreadRef` ref cell. -/
structure AppState where
  activeTab : TabType
  page : PageState
  unreadCount : Nat
  lastUnread : Nat
deriving DecidableEq, Repr

/-- `setPage` is the raw `useState` setter: it replaces the page state
wholesale, with no validation of any kind. -/
def setPage (p : PageState) (s : AppState) : AppState :=
  { s with page := p }

/-- `handleTabChange`: sets the active tab, resets the page to
`{ type: 'main' }`, and when the target tab is `messages` also clears
the unread count and the `lastUnreadRef` baseline. -/
def handleTabChange (tab : TabType) (s : AppState) : AppState :=
  let s' : AppState :=
    { s with activeTab := tab
             page := { type := PageType.main, listingId := none,
                       chatId := none, sellerId := none } }
  if tab = TabType.messages then
    { s' with unreadCount := 0, lastUnread := 0 }
  else
    s'

/-! ## Unread-count poller (App.tsx, `checkUnread`) -/

/-- One tick of the unread poller, `checkUnread`:
```
const { count } = await chatsApi.getUnreadCount();
setUnreadCount(count);
if (count > lastUnreadRef.current && lastUnreadRef.current > 0) { ...showToast... }
lastUnreadRef.current = count;
```
Given the fetched `count`, returns the updated state and whether a toast
was raised on this tick. -/
def checkUnread (count : Nat) (s : AppState) : AppState × Bool :=
  let fires := decide (s.lastUnread < count) && decide (0 < s.lastUnread)
  ({ s with unreadCount := count, lastUnread := count }, fires)

/-- Run the unread poller over a sequence of fetched counts, recording
for each tick whether a toast was raised. -/
def unreadToastFlags (s : AppState) (counts : List Nat) : List Bool :=
  match counts with
  | [] => []
  | c :: rest =>
    let r := checkUnread c s
    r.2 :: unreadToastFlags r.1 rest

/-- A concrete app state with a zero unread baseline, as after mount or
after `handleTabChange('messages')`. -/
def zeroBaselineState : AppState :=
  { activeTab := TabType.home
    page := { type := PageType.main, listingId := none,
              chatId := none, sellerId := none }
    unreadCount := 0
    lastUnread := 0 }

/-! ## Page rendering (App.tsx, the `if (page.type === ...)` chain)

`AppContent` dispatches on `page.type` in a fixed order, and the
variants that carry an identifier are additionally guarded by JavaScript
truthiness of that identifier (`page.type === 'listing' && page.listingId`);
when no branch matches, the main tab layout renders. -/

/-- The screen actually rendered by `AppContent` (after loading / error /
passcode gating). -/
inductive Screen where
  | createListing
  | myListings
  | favorites
  | myPurchases
  | sellerProfile (sellerId : String)
  | editListing (listingId : String)
  | listingDetail (listingId : String)
  | chatRoom (chatId : String)
  | mainLayout (tab : TabType)
deriving DecidableEq, Repr

/-- JavaScript truthiness of an optional string: `undefined` and the
empty string are falsy. -/
def truthy : Option String → Bool
  | some s => !s.data.isEmpty
  | none => false

/-- The page-dispatch chain of `AppContent`'s render, in source order:
`create`, `my-listings`, `favorites`, `my-purchases`,
`seller-profile && page.sellerId`, `edit && page.listingId`,
`listing && page.listingId`, `chat-room && page.chatId`, else the main
tab layout. -/
def renderPage (s : AppState) : Screen :=
  if s.page.type = PageType.create then Screen.createListing
  else if s.page.type = PageType.myListings then Screen.myListings
  else if s.page.type = PageType.favorites then Screen.favorites
  else if s.page.type = PageType.myPurchases then Screen.myPurchases
  else if s.page.type = PageType.sellerProfile ∧ truthy s.page.sellerId then
    Screen.sellerProfile (s.page.sellerId.getD "")
  else if s.page.type = PageType.edit ∧ truthy s.page.listingId then
    Screen.editListing (s.page.listingId.getD "")
  else if s.page.type = PageType.listing ∧ truthy s.page.listingId then
    Screen.listingDetail (s.page.listingId.getD "")
  else if s.page.type = PageType.chatRoom ∧ truthy s.page.chatId then
    Screen.chatRoom (s.page.chatId.getD "")
  else Screen.mainLayout s.activeTab

/-! ## Deep-link resolution (App.tsx, `handleDeepLink`) -/

/-- The page state issued for a matched listing deep link:
`setPage({ type: 'listing', listingId })`. -/
def listingPage (id : String) : PageState :=
  { type := PageType.listing, listingId := some id,
    chatId := none, sellerId := none }

/-- Check one of the two `l_`-style sources
(`startParam?.startsWith('l_')`, `startapp?.startsWith('l_')`):
when present and starting with `"l_"`, yield `slice(2)`, the listing id. -/
def checkStartSource : Option String → Option String
  | some v => if jsStartsWith v "l_" then some (jsDrop v 2) else none
  | none => none

/-- Is a character admitted by the hash pattern character class
`[a-zA-Z0-9-]`? -/
def hashListingChar (c : Char) : Bool :=
  c.isAlpha || c.isDigit || c = '-'

/-- Match the URL hash against the anchored regular expression
`^#\/l\/([a-zA-Z0-9-]+)$`: the hash must start with `#/l/` and the
remainder must be a nonempty run of characters from `[a-zA-Z0-9-]`. -/
def matchHashListing (hash : String) : Option String :=
  if jsStartsWith hash "#/l/" then
    let id := jsDrop hash 4
    if 0 < jsLength id && jsAll id hashListingChar then some id else none
  else none

/-- `handleDeepLink`: inspect the Telegram `start_param`, then the
`?startapp=` URL query parameter, then the URL hash, in that order; the
first match issues `setPage({ type: 'listing', listingId })` and
returns.  The result is the page state issued, or `none` when no source
matches (in which case nothing happens). -/
def handleDeepLink (startParam startapp : Option String) (hash : String) :
    Option PageState :=
  match checkStartSource startParam with
  | some id => some (listingPage id)
  | none =>
    match checkStartSource startapp with
    | some id => some (listingPage id)
    | none =>
      match matchHashListing hash with
      | some id => some (listingPage id)
      | none => none

/-- Apply the deep-link resolution to the app state: a match issues
`setPage`, no match leaves the state untouched. -/
def applyDeepLink (startParam startapp : Option String) (hash : String)
    (s : AppState) : AppState :=
  match handleDeepLink startParam startapp hash with
  | some p => setPage p s
  | none => s

/-! ## Chat-room message poller (ChatRoomPage.tsx, `pollMessages`)

`ChatRoomPage` installs `setInterval(pollMessages, 3000)` in a
`useEffect` whose dependency array is `[chatId]`.  `pollMessages` is a
closure over the `messages` state *of the render in which the effect
ran*; `setMessages(prev => [...prev, ...newMsgs])` however updates from
the current state.  The embedding therefore distinguishes the `captured`
list the closure reads from the `current` list the functional update
appends to.  The network call `chatsApi.getMessages(chatId, since)` is a
function parameter `fetch`; timestamps are naturals. -/

/-- A chat message record (`ChatMessage` in `lib/api`): the fields the
poller and the renderer use — `id` (the React list key), `created_at`
(the "since" anchor), the text and ownership/read flags. -/
structure ChatMessage where
  id : Nat
  created_at : Nat
  text : String
  is_mine : Bool
  is_read : Bool
deriving DecidableEq, Repr

/-- The outcome of one `pollMessages` tick: the resulting message list,
whether the success haptic fired, and whether the network request was
issued at all. -/
structure PollResult where
  messages : List ChatMessage
  hapticFired : Bool
  requested : Bool
deriving DecidableEq, Repr

/-- One tick of `pollMessages`:
```
if (!messages.length) return;
const lastMessageTime = messages[messages.length - 1]?.created_at;
const newMsgs = await chatsApi.getMessages(chatId, lastMessageTime);
if (newMsgs.length > 0) { setMessages(prev => [...prev, ...newMsgs]); haptic... }
```
`captured` is the closed-over `messages`, `current` the list the
functional `setMessages` update sees. -/
def pollMessages (captured current : List ChatMessage)
    (fetch : Option Nat → List ChatMessage) : PollResult :=
  if captured.isEmpty then
    { messages := current, hapticFired := false, requested := false }
  else
    let lastMessageTime := captured.getLast?.map ChatMessage.created_at
    let newMsgs := fetch lastMessageTime
    if 0 < newMsgs.length then
      { messages := current ++ newMsgs, hapticFired := true, requested := true }
    else
      { messages := current, hapticFired := false, requested := true }

/-- Iterate the installed interval: each tick runs `pollMessages` with
the *same* captured list (the stale closure) against the evolving
current list, one `fetch` environment per tick. -/
def pollLoop (captured : List ChatMessage)
    (fetches : List (Option Nat → List ChatMessage))
    (current : List ChatMessage) : List ChatMessage :=
  match fetches with
  | [] => current
  | f :: rest => pollLoop captured rest (pollMessages captured current f).messages

/-! ## Toast layer (Toast.tsx: `ToastProvider`, `showToast`, `hideToast`)

`showToast` assigns `const id = Date.now().toString()` and, when the
effective duration is positive, schedules a `setTimeout` that filters
the toast out.  The provider state is modelled as the toast list plus
the list of pending timer events; the wall clock `Date.now()` is a
`now : Nat` parameter (milliseconds). -/

/-- `type: 'success' | 'error' | 'info' | 'message'`. -/
inductive ToastType where
  | success
  | error
  | info
  | message
deriving DecidableEq, Repr

/-- The argument of `showToast` (`Omit<Toast, 'id'>`); the opaque
`onClick` callback is reduced to its presence. -/
structure ToastInput where
  type : ToastType
  title : String
  message : Option String
  duration : Option Int
  hasOnClick : Bool
deriving DecidableEq, Repr

/-- A toast stored in the provider list: the input plus the generated
string identifier. -/
structure Toast where
  id : String
  type : ToastType
  title : String
  message : Option String
  duration : Option Int
  hasOnClick : Bool
deriving DecidableEq, Repr

/-- A pending auto-dismiss `setTimeout`: when it fires (`fireAt`
milliseconds) it removes the toast with identifier `toastId`. -/
structure TimerEvent where
  fireAt : Int
  toastId : String
deriving DecidableEq, Repr

/-- The `ToastProvider` state: the toast list and the pending
auto-dismiss timers. -/
structure ToastState where
  toasts : List Toast
  timers : List TimerEvent
deriving DecidableEq, Repr

/-- The default auto-dismiss timer scheduled by `showToast` at time
`now` when no duration is given: fires 4000ms later for the toast whose
id is `Date.now().toString()`. -/
def defaultTimer (now : Nat) : TimerEvent :=
  { fireAt := (now : Int) + 4000, toastId := toString now }

/-- The toast record `{ ...toast, id }` built by `showToast` at
wall-clock time `now`: the generated identifier is
`Date.now().toString()`. -/
def mkToast (now : Nat) (input : ToastInput) : Toast :=
  { id := toString now, type := input.type, title := input.title,
    message := input.message, duration := input.duration,
    hasOnClick := input.hasOnClick }

/-- `showToast` at wall-clock time `now`:
```
const id = Date.now().toString();
setToasts(prev => [...prev, { ...toast, id }]);
const duration = toast.duration ?? 4000;
if (duration > 0) { setTimeout(() => setToasts(prev => prev.filter(t => t.id !== id)), duration); }
```
-/
def showToast (now : Nat) (input : ToastInput) (s : ToastState) : ToastState :=
  let toast := mkToast now input
  let duration := input.duration.getD 4000
  { toasts := s.toasts ++ [toast]
    timers :=
      if 0 < duration then
        s.timers ++ [{ fireAt := (now : Int) + duration, toastId := toast.id }]
      else s.timers }

/-- `hideToast(id)`: `setToasts(prev => prev.filter(t => t.id !== id))`. -/
def hideToast (id : String) (s : ToastState) : ToastState :=
  { s with toasts := s.toasts.filter (fun t => t.id != id) }

/-- The body of the auto-dismiss `setTimeout` callback for `ev`, when it
fires: filter out every toast whose id equals the scheduled toast id. -/
def timerFires (ev : TimerEvent) (s : ToastState) : ToastState :=
  { s with toasts := s.toasts.filter (fun t => t.id != ev.toastId) }

/-! ## Passcode lock (PasscodeLock.tsx, `handleSubmit`)

Verification is delegated to `usersApi.verifyPasscode(passcode)`, which
succeeds exactly when the submitted digits match the user's stored
passcode; the embedding compares against the stored code directly. -/

/-- The `PasscodeLock` component state: entered digits, error flag, the
failure counter (`attempts`), and whether `onUnlock` has been called. -/
structure LockState where
  passcode : String
  error : Bool
  attempts : Nat
  unlocked : Bool
deriving DecidableEq, Repr

/-- `handleSubmit`:
```
if (passcode.length !== 4) return;
try { await usersApi.verifyPasscode(passcode); setAttempts(0); onUnlock(); }
catch { setError(true); setPasscode(''); setAttempts(prev => prev + 1); }
```
`stored` is the passcode on record; verification succeeds iff the
entered digits equal it. -/
def handleSubmit (stored : String) (s : LockState) : LockState :=
  if jsLength s.passcode ≠ 4 then s
  else if s.passcode = stored then
    { s with attempts := 0, unlocked := true }
  else
    { s with error := true, passcode := "", attempts := s.attempts + 1 }

/-- The reset affordance ("Forgot passcode?") renders exactly under
`attempts >= 2`. -/
def resetAffordanceVisible (s : LockState) : Bool :=
  2 ≤ s.attempts

/-! # Theorems -/

/-- C1, counterexample.  The claim asserts that observing the unread
counts [0, 0, 3, 3, 5] from a zero baseline raises exactly two toasts,
one on 0→3 and one on 3→5.  On the code it raises exactly one: the 0→3
tick is suppressed because the stored baseline is still zero
(`lastUnreadRef.current > 0` fails), so the toast count is 1, not 2, and
the third tick (0→3) raises no toast. -/
theorem unread_run_two_toasts_refuted :
    (unreadToastFlags zeroBaselineState [0, 0, 3, 3, 5]).count true ≠ 2 ∧
    (unreadToastFlags zeroBaselineState [0, 0, 3, 3, 5])[2]? = some false := by
  decide

/-- C1, amended: for the unread-count poller started with a zero
baseline, observing the counts [0, 0, 3, 3, 5] in order raises exactly
one toast, on the transition 3→5; no toast is raised on 0→0, on the
initial baseline of 0, or on the 0→3 transition (whose baseline is still
zero). -/
theorem unread_run_single_toast :
    unreadToastFlags zeroBaselineState [0, 0, 3, 3, 5] =
      [false, false, false, false, true] ∧
    (unreadToastFlags zeroBaselineState [0, 0, 3, 3, 5]).count true = 1 := by
  decide

/-- C2: on every unread poll tick, a toast is emitted iff the newly
fetched count strictly exceeds the stored baseline and that baseline is
nonzero (so the first observation after a zero baseline emits no toast),
and in every case the fetched count is stored as the new baseline and as
the displayed unread count. -/
theorem unread_tick_toast_iff (s : AppState) (count : Nat) :
    ((checkUnread count s).2 = true ↔ s.lastUnread < count ∧ 0 < s.lastUnread) ∧
    (checkUnread count s).1.lastUnread = count ∧
    (checkUnread count s).1.unreadCount = count := by
  refine ⟨?_, rfl, rfl⟩
  simp [checkUnread]

/-- A concrete chat message, for witnesses. -/
def mkMsg (i t : Nat) : ChatMessage :=
  { id := i, created_at := t, text := "hi", is_mine := false, is_read := false }

/-- C3: the poll interval of `ChatRoomPage` is installed with a
`useEffect` keyed only on `chatId`, so `pollMessages`'s empty-list guard
reads the `messages` list captured at installation time, not the
current one.  When that captured list is empty, every tick returns
early: no request is ever issued and no message is ever appended, no
matter how the current list evolves; messages are appended only when
the guard reads the current list (the fresh-guard tick with a nonempty
list and a nonempty fetch strictly extends the list). -/
theorem chat_poll_stale_guard (fetches : List (Option Nat → List ChatMessage))
    (current : List ChatMessage) :
    pollLoop [] fetches current = current ∧
    (∀ (cur : List ChatMessage) (f : Option Nat → List ChatMessage),
      (pollMessages [] cur f).requested = false) ∧
    (∀ (cur : List ChatMessage) (f : Option Nat → List ChatMessage),
      cur ≠ [] → f (cur.getLast?.map ChatMessage.created_at) ≠ [] →
      (pollMessages cur cur f).messages =
        cur ++ f (cur.getLast?.map ChatMessage.created_at) ∧
      (pollMessages cur cur f).messages ≠ cur) := by
  refine ⟨?_, ?_, ?_⟩
  · induction fetches generalizing current with
    | nil => rfl
    | cons f rest ih => simpa [pollLoop, pollMessages] using ih _
  · intro cur f
    simp [pollMessages]
  · intro cur f hcur hnew
    have hempty : cur.isEmpty = false := by
      simp [List.isEmpty_iff, hcur]
    have hlen : 0 < (f (cur.getLast?.map ChatMessage.created_at)).length :=
      List.length_pos.mpr hnew
    constructor
    · simp [pollMessages, hempty, hlen]
    · simp [pollMessages, hempty, hlen, hnew]

/-- C3, witness: a stale empty-capture loop of two ticks appends
nothing, while a fresh-guard tick on a one-message list appends the
fetched message. -/
theorem chat_poll_stale_guard_witness :
    pollLoop [] [fun _ => [mkMsg 1 1], fun _ => [mkMsg 2 2]] [] = [] ∧
    (pollMessages [mkMsg 1 1] [mkMsg 1 1] (fun _ => [mkMsg 2 2])).messages =
      [mkMsg 1 1] ++ [mkMsg 2 2] := by
  have h := chat_poll_stale_guard [fun _ => [mkMsg 1 1], fun _ => [mkMsg 2 2]] []
  exact ⟨h.1, (h.2.2 [mkMsg 1 1] (fun _ => [mkMsg 2 2]) (by decide) (by decide)).1⟩

/-- C5: a `pollMessages` tick whose closed-over list has 5 messages and
whose fetch returns 2 new ones produces the 5 originals followed by the
2 new messages (7 in total, arrival order preserved, no duplicate ids
given id-disjoint inputs) and fires the haptic cue; a tick whose fetch
returns the empty list leaves the message list unchanged (the setter is
not called) and fires no haptic cue; a tick starting from an empty list
issues no request at all. -/
theorem chat_poll_tick_merge (msgs newMsgs : List ChatMessage)
    (f : Option Nat → List ChatMessage)
    (hf : f (msgs.getLast?.map ChatMessage.created_at) = newMsgs) :
    (msgs.length = 5 → newMsgs.length = 2 →
      (pollMessages msgs msgs f).messages = msgs ++ newMsgs ∧
      (pollMessages msgs msgs f).messages.length = 7 ∧
      (pollMessages msgs msgs f).hapticFired = true ∧
      ((msgs.map ChatMessage.id).Nodup → (newMsgs.map ChatMessage.id).Nodup →
        (msgs.map ChatMessage.id).Disjoint (newMsgs.map ChatMessage.id) →
        ((pollMessages msgs msgs f).messages.map ChatMessage.id).Nodup)) ∧
    (newMsgs = [] →
      (pollMessages msgs msgs f).messages = msgs ∧
      (pollMessages msgs msgs f).hapticFired = false) ∧
    ((pollMessages [] [] f).messages = [] ∧
      (pollMessages [] [] f).hapticFired = false ∧
      (pollMessages [] [] f).requested = false) := by
  refine ⟨?_, ?_, by simp [pollMessages]⟩
  · intro h5 h2
    have hne : msgs ≠ [] := by
      intro h
      rw [h] at h5
      simp at h5
    have hempty : msgs.isEmpty = false := by
      simp [List.isEmpty_iff, hne]
    have hlen : 0 < newMsgs.length := by
      rw [h2]
      decide
    have hmsgs : (pollMessages msgs msgs f).messages = msgs ++ newMsgs := by
      simp [pollMessages, hempty, hf, hlen]
    refine ⟨hmsgs, ?_, ?_, ?_⟩
    · rw [hmsgs, List.length_append, h5, h2]
    · simp [pollMessages, hempty, hf, hlen]
    · intro d1 d2 dj
      rw [hmsgs, List.map_append]
      exact List.Nodup.append d1 d2 dj
  · intro h0
    cases msgs with
    | nil => simp [pollMessages]
    | cons a l =>
      rw [h0] at hf
      simp [pollMessages, hf]

/-- C5, witness: a concrete tick merging 2 fetched messages into 5
existing ones yields the 7 messages in order with pairwise distinct
ids and fires the haptic cue. -/
theorem chat_poll_tick_merge_witness :
    (pollMessages
        [mkMsg 1 1, mkMsg 2 2, mkMsg 3 3, mkMsg 4 4, mkMsg 5 5]
        [mkMsg 1 1, mkMsg 2 2, mkMsg 3 3, mkMsg 4 4, mkMsg 5 5]
        (fun _ => [mkMsg 6 6, mkMsg 7 7])).messages =
      [mkMsg 1 1, mkMsg 2 2, mkMsg 3 3, mkMsg 4 4, mkMsg 5 5] ++
        [mkMsg 6 6, mkMsg 7 7] ∧
    (pollMessages
        [mkMsg 1 1, mkMsg 2 2, mkMsg 3 3, mkMsg 4 4, mkMsg 5 5]
        [mkMsg 1 1, mkMsg 2 2, mkMsg 3 3, mkMsg 4 4, mkMsg 5 5]
        (fun _ => [mkMsg 6 6, mkMsg 7 7])).messages.length = 7 ∧
    (pollMessages
        [mkMsg 1 1, mkMsg 2 2, mkMsg 3 3, mkMsg 4 4, mkMsg 5 5]
        [mkMsg 1 1, mkMsg 2 2, mkMsg 3 3, mkMsg 4 4, mkMsg 5 5]
        (fun _ => [mkMsg 6 6, mkMsg 7 7])).hapticFired = true ∧
    ((pollMessages
        [mkMsg 1 1, mkMsg 2 2, mkMsg 3 3, mkMsg 4 4, mkMsg 5 5]
        [mkMsg 1 1, mkMsg 2 2, mkMsg 3 3, mkMsg 4 4, mkMsg 5 5]
        (fun _ => [mkMsg 6 6, mkMsg 7 7])).messages.map ChatMessage.id).Nodup := by
  have h := (chat_poll_tick_merge
      [mkMsg 1 1, mkMsg 2 2, mkMsg 3 3, mkMsg 4 4, mkMsg 5 5]
      [mkMsg 6 6, mkMsg 7 7]
      (fun _ => [mkMsg 6 6, mkMsg 7 7]) rfl).1 (by decide) (by decide)
  refine ⟨h.1, h.2.1, h.2.2.1, h.2.2.2 (by decide) (by decide) ?_⟩
  intro a ha hb
  simp [mkMsg] at ha hb
  omega

/-- C4, counterexample: invoking `setPage` with the `listing` variant
while the listing id is missing does not leave the page state unchanged.
`setPage` is the raw `useState` setter — it replaces the page
unconditionally, so from the main page the state moves to the
id-less `listing` state. -/
theorem set_page_missing_id_not_noop :
    (setPage { type := PageType.listing, listingId := none, chatId := none,
               sellerId := none } zeroBaselineState).page ≠
      zeroBaselineState.page := by
  decide

/-- Helper for C4: a fold of `setPage` calls leaves the page at the last
call's target. -/
theorem foldl_setPage_page (ps : List PageState) :
    ∀ (s : AppState) (p : PageState), ps.getLast? = some p →
      (ps.foldl (fun st q => setPage q st) s).page = p := by
  induction ps with
  | nil =>
    intro s p h
    simp at h
  | cons q rest ih =>
    intro s p h
    cases rest with
    | nil =>
      simp at h
      subst h
      rfl
    | cons r t =>
      rw [List.getLast?_cons_cons] at h
      exact ih (setPage q s) p h

/-- C4, amended: `setPage` replaces the page state unconditionally, even
when the target variant's required identifier is missing or malformed
(empty), so the transition is not a no-op at the state level; however,
the render dispatch never shows a listing screen without a truthy id —
such a state falls through to the main layout — and after any sequence
of `setPage` calls the page equals the last call's target. -/
theorem set_page_replace_and_render (s : AppState) (p : PageState)
    (ps : List PageState) (oid : Option String) :
    (setPage p s).page = p ∧
    (ps.getLast? = some p →
      (ps.foldl (fun st q => setPage q st) s).page = p) ∧
    (truthy oid = false →
      renderPage (setPage { type := PageType.listing, listingId := oid,
                            chatId := none, sellerId := none } s) =
        Screen.mainLayout s.activeTab) := by
  refine ⟨rfl, foldl_setPage_page ps s p, ?_⟩
  intro h
  simp [renderPage, setPage, h]

/-- C4, witness: a two-call sequence ends at the second target, and an
id-less `listing` state renders the main layout. -/
theorem set_page_replace_and_render_witness :
    (setPage (listingPage "b") zeroBaselineState).page = listingPage "b" ∧
    ([listingPage "a", listingPage "b"].foldl (fun st q => setPage q st)
        zeroBaselineState).page = listingPage "b" ∧
    renderPage (setPage { type := PageType.listing, listingId := none,
                          chatId := none, sellerId := none }
        zeroBaselineState) = Screen.mainLayout TabType.home := by
  have h := set_page_replace_and_render zeroBaselineState (listingPage "b")
      [listingPage "a", listingPage "b"] none
  exact ⟨h.1, h.2.1 (by decide), h.2.2 (by decide)⟩

/-- C6: deep-link resolution inspects the Telegram start parameter, then
the `?startapp=` query parameter, then the URL hash, in that order.  A
start parameter matching `l_…` short-circuits and opens its id whatever
the other sources hold (in particular when the hash encodes a different
id); `startapp` is consulted only when the start parameter does not
match; the hash pattern is consulted last; and when no source matches,
nothing is issued and the app state is untouched. -/
theorem deep_link_precedence (v : String) (sa : Option String)
    (hash : String) :
    (jsStartsWith v "l_" = true →
      handleDeepLink (some v) sa hash = some (listingPage (jsDrop v 2))) ∧
    (∀ (sp : Option String) (w : String), checkStartSource sp = none →
      jsStartsWith w "l_" = true →
      handleDeepLink sp (some w) hash = some (listingPage (jsDrop w 2))) ∧
    (∀ (sp sa' : Option String) (id : String), checkStartSource sp = none →
      checkStartSource sa' = none → matchHashListing hash = some id →
      handleDeepLink sp sa' hash = some (listingPage id)) ∧
    (∀ (sp sa' : Option String), checkStartSource sp = none →
      checkStartSource sa' = none → matchHashListing hash = none →
      handleDeepLink sp sa' hash = none ∧
      ∀ st : AppState, applyDeepLink sp sa' hash st = st) := by
  refine ⟨?_, ?_, ?_, ?_⟩
  · intro h
    simp [handleDeepLink, checkStartSource, h]
  · intro sp w h1 h2
    simp only [handleDeepLink, h1]
    simp [checkStartSource, h2]
  · intro sp sa' id h1 h2 h3
    simp only [handleDeepLink, h1, h2, h3]
  · intro sp sa' h1 h2 h3
    refine ⟨by simp only [handleDeepLink, h1, h2, h3], ?_⟩
    intro st
    simp only [applyDeepLink, handleDeepLink, h1, h2, h3]

/-- C6, witness: with the start parameter and the hash encoding
different ids, the start parameter's id opens; each source matches when
the earlier ones do not; and with no matching source nothing happens. -/
theorem deep_link_precedence_witness :
    handleDeepLink (some "l_aaa") none "#/l/bbb" = some (listingPage "aaa") ∧
    handleDeepLink none (some "l_ccc") "#/l/bbb" = some (listingPage "ccc") ∧
    handleDeepLink none none "#/l/bbb" = some (listingPage "bbb") ∧
    handleDeepLink none none "nope" = none := by
  have h := deep_link_precedence "l_aaa" none "#/l/bbb"
  have h' := deep_link_precedence "x" none "nope"
  exact ⟨h.1 (by decide), h.2.1 none "l_ccc" (by decide) (by decide),
    h.2.2.1 none none "bbb" (by decide) (by decide) (by decide),
    (h'.2.2.2 none none (by decide) (by decide) (by decide)).1⟩

/-- C7: submitting 4 digits that mismatch the stored passcode moves the
lock into the error state, clears the entered digits, and increments the
failure counter by exactly 1; the reset affordance is visible exactly
when the failure counter has reached 2; and a correct 4-digit entry
resets the failure counter to 0 and unlocks. -/
theorem passcode_submit_behaviour (stored : String) (s : LockState) :
    (jsLength s.passcode = 4 → s.passcode ≠ stored →
      (handleSubmit stored s).error = true ∧
      (handleSubmit stored s).passcode = "" ∧
      (handleSubmit stored s).attempts = s.attempts + 1) ∧
    (resetAffordanceVisible s = true ↔ 2 ≤ s.attempts) ∧
    (jsLength s.passcode = 4 → s.passcode = stored →
      (handleSubmit stored s).attempts = 0 ∧
      (handleSubmit stored s).unlocked = true) := by
  refine ⟨?_, by simp [resetAffordanceVisible], ?_⟩
  · intro h4 hne
    simp [handleSubmit, h4, hne]
  · intro h4 heq
    subst heq
    simp [handleSubmit, h4]

/-- A lock state after one failure, with a wrong 4-digit entry pending,
for the C7 witness. -/
def wrongEntryState : LockState :=
  { passcode := "9999", error := false, attempts := 1, unlocked := false }

/-- A lock state after two failures, with the correct 4-digit entry
pending, for the C7 witness. -/
def rightEntryState : LockState :=
  { passcode := "1234", error := false, attempts := 2, unlocked := false }

/-- C7, witness: a wrong 4-digit entry at one prior failure reaches two
failures and makes the reset affordance visible; a correct entry at two
failures resets the counter. -/
theorem passcode_submit_behaviour_witness :
    (handleSubmit "1234" wrongEntryState).error = true ∧
    (handleSubmit "1234" wrongEntryState).passcode = "" ∧
    (handleSubmit "1234" wrongEntryState).attempts = 2 ∧
    resetAffordanceVisible (handleSubmit "1234" wrongEntryState) = true ∧
    (handleSubmit "1234" rightEntryState).attempts = 0 := by
  have h1 := (passcode_submit_behaviour "1234" wrongEntryState).1
      (by decide) (by decide)
  have h2 := (passcode_submit_behaviour "1234" rightEntryState).2.2
      (by decide) rfl
  have h3 := (passcode_submit_behaviour "1234"
      (handleSubmit "1234" wrongEntryState)).2.1
  exact ⟨h1.1, h1.2.1, h1.2.2, h3.mpr (by rw [h1.2.2]; decide), h2.1⟩

/-- Toast inputs for the identifier counterexample: two toasts raised in
the same millisecond. -/
def dupToastA : ToastInput :=
  { type := ToastType.message, title := "A", message := none,
    duration := none, hasOnClick := false }

/-- Second toast input raised in the same millisecond as `dupToastA`. -/
def dupToastB : ToastInput :=
  { type := ToastType.message, title := "B", message := none,
    duration := none, hasOnClick := false }

/-- C8, counterexample: toast identifiers come from
`Date.now().toString()`, so two `showToast` calls within the same
millisecond (here both at wall-clock 1000) assign the *same* identifier
— the later toast's id is not strictly greater than the earlier one's —
and `hideToast` with that identifier removes both toasts, not only
one. -/
theorem toast_id_monotone_refuted :
    ((showToast 1000 dupToastB (showToast 1000 dupToastA
        { toasts := [], timers := [] })).toasts.map Toast.id =
      ["1000", "1000"]) ∧
    (hideToast "1000" (showToast 1000 dupToastB (showToast 1000 dupToastA
        { toasts := [], timers := [] }))).toasts = [] := by
  decide

/-- C8, amended: a toast's identifier is its creation timestamp rendered
as a string, so identifiers are non-decreasing but not strictly
increasing — calls in the same millisecond share an identifier — and
`hideToast(id)` removes exactly the toasts whose identifier equals
`id`. -/
theorem toast_id_assignment (s : ToastState) (now : Nat) (inp : ToastInput)
    (id : String) (t : Toast) :
    ((showToast now inp s).toasts.getLast?.map Toast.id =
      some (toString now)) ∧
    (t ∈ (hideToast id s).toasts ↔ t ∈ s.toasts ∧ t.id ≠ id) := by
  constructor
  · simp [showToast, List.getLast?_concat, mkToast]
  · simp [hideToast, List.mem_filter, bne_iff_ne]

/-- Toast input with an explicit zero duration. -/
def zeroDurToast : ToastInput :=
  { type := ToastType.info, title := "sticky", message := none,
    duration := some 0, hasOnClick := false }

/-- Toast input with no duration (default 4000ms). -/
def defaultDurToast : ToastInput :=
  { type := ToastType.success, title := "auto", message := none,
    duration := none, hasOnClick := false }

/-- C10, counterexample: a zero-duration toast is *not* always immune to
the auto-dismiss timer.  Identifiers are `Date.now().toString()`, so a
default-duration toast created in the same millisecond (here both at
wall-clock 1000) shares the zero-duration toast's identifier; the only
pending timer is the default toast's 4000ms one, and its callback
(`prev.filter(t => t.id !== id)`) removes *both* toasts — the
zero-duration toast is gone with no `hideToast` call ever made. -/
theorem toast_zero_duration_persist_refuted :
    (showToast 1000 defaultDurToast (showToast 1000 zeroDurToast
        { toasts := [], timers := [] })).timers = [defaultTimer 1000] ∧
    mkToast 1000 zeroDurToast ∈ (showToast 1000 defaultDurToast
        (showToast 1000 zeroDurToast { toasts := [], timers := [] })).toasts ∧
    (timerFires (defaultTimer 1000) (showToast 1000 defaultDurToast
        (showToast 1000 zeroDurToast { toasts := [], timers := [] }))).toasts
      = [] := by
  decide

/-- C10, amended: a toast whose requested duration is ≤ 0 (in
particular 0) gets no auto-dismiss timer of its own — `showToast` leaves
the pending timers untouched and appends the toast — and it survives the
firing of any pending timer bearing a *different* identifier, so it
persists until an explicit `hideToast` with its identifier removes it
whenever no pending timer shares that identifier (a timer scheduled for
a same-millisecond toast shares it and removes it too, per the
counterexample); a toast created with no duration gets the default
4000ms timer, whose firing removes it. -/
theorem toast_duration_auto_dismiss (s : ToastState) (now : Nat)
    (inp : ToastInput) :
    (inp.duration.getD 4000 ≤ 0 →
      (showToast now inp s).timers = s.timers ∧
      mkToast now inp ∈ (showToast now inp s).toasts ∧
      (∀ ev ∈ s.timers, ev.toastId ≠ toString now →
        mkToast now inp ∈ (timerFires ev (showToast now inp s)).toasts) ∧
      (∀ t ∈ (hideToast (toString now) (showToast now inp s)).toasts,
        t.id ≠ toString now)) ∧
    (inp.duration = none →
      (showToast now inp s).timers = s.timers ++ [defaultTimer now] ∧
      (∀ t ∈ (timerFires (defaultTimer now) (showToast now inp s)).toasts,
        t.id ≠ toString now)) := by
  constructor
  · intro hd
    have hnpos : ¬ (0 : Int) < inp.duration.getD 4000 := not_lt.mpr hd
    refine ⟨by simp [showToast, hnpos], by simp [showToast], ?_, ?_⟩
    · intro ev hev hne
      refine List.mem_filter.mpr ⟨by simp [showToast], ?_⟩
      exact bne_iff_ne.mpr (by simp [mkToast, Ne.symm hne])
    · intro t ht
      have := List.mem_filter.mp ht
      exact bne_iff_ne.mp this.2
  · intro h
    refine ⟨by simp [showToast, h, mkToast, defaultTimer], ?_⟩
    intro t ht
    have := List.mem_filter.mp ht
    have hne := bne_iff_ne.mp this.2
    simpa [defaultTimer] using hne

/-- C10, witness: in a state with no pending timers, a zero-duration
toast schedules no timer and `hideToast` removes it; a default-duration
toast schedules the 4000ms timer whose firing removes it. -/
theorem toast_duration_auto_dismiss_witness :
    (showToast 7 zeroDurToast { toasts := [], timers := [] }).timers = [] ∧
    mkToast 7 zeroDurToast ∈
      (showToast 7 zeroDurToast { toasts := [], timers := [] }).toasts ∧
    (∀ t ∈ (hideToast (toString 7)
        (showToast 7 zeroDurToast { toasts := [], timers := [] })).toasts,
      t.id ≠ toString 7) ∧
    (showToast 7 defaultDurToast { toasts := [], timers := [] }).timers =
      [defaultTimer 7] ∧
    (∀ t ∈ (timerFires (defaultTimer 7)
        (showToast 7 defaultDurToast { toasts := [], timers := [] })).toasts,
      t.id ≠ toString 7) := by
  have h1 := (toast_duration_auto_dismiss { toasts := [], timers := [] } 7
      zeroDurToast).1 (by decide)
  have h2 := (toast_duration_auto_dismiss { toasts := [], timers := [] } 7
      defaultDurToast).2 rfl
  exact ⟨h1.1, h1.2.1, h1.2.2.2, h2.1, h2.2⟩

/-- C9: `handleTabChange('messages')` always resets the unread count and
the `lastUnreadRef` baseline to zero, whatever their prior values; and
for every tab, `handleTabChange` resets the page state to `main` and
sets the active tab to its argument. -/
theorem tab_change_resets (s : AppState) (tab : TabType) :
    (handleTabChange TabType.messages s).unreadCount = 0 ∧
    (handleTabChange TabType.messages s).lastUnread = 0 ∧
    (handleTabChange tab s).page =
      { type := PageType.main, listingId := none, chatId := none,
        sellerId := none } ∧
    (handleTabChange tab s).activeTab = tab := by
  refine ⟨by simp [handleTabChange], by simp [handleTabChange], ?_, ?_⟩ <;>
    cases tab <;> simp [handleTabChange]

end Gebeya
